import Mathlib

/-!
Shallow embedding of `check_ranger_policy.py` (a Nagios plugin checking an
Apache Ranger policy via the Ranger Admin REST API).

The embedded core is `CheckRangerPolicy.parse_json`, `CheckRangerPolicy.check_policy`
and `CheckRangerPolicy.print_policies` from the source.  Decoded JSON payloads are
modelled by the inductive `Ranger.Json`; Python truthiness, `str()` and dictionary
indexing are modelled explicitly.  Framework behaviour that lives outside this
repository's source file (the plugin base class catching `CriticalError` /
`UnknownError` / uncaught exceptions and turning them into exit severities) is
modelled from the spec where noted.
-/

namespace Ranger

set_option autoImplicit false

/-- A decoded JSON value, as handed to `parse_json` by the REST framework.
Numbers are modelled as integers (the fields this plugin touches are ids and
booleans). -/
inductive Json where
  | null
  | bool (b : Bool)
  | num (n : Int)
  | str (s : String)
  | arr (xs : List Json)
  | obj (fields : List (String × Json))

/-- Python truthiness (`if x:`) of a decoded JSON value: `None`, `False`, `0`,
`""`, `[]` and `{}` are falsy, everything else truthy. -/
def Json.truthy : Json → Bool
  | .null => false
  | .bool b => b
  | .num n => n != 0
  | .str s => s != ""
  | .arr xs => !xs.isEmpty
  | .obj fs => !fs.isEmpty

/-- `isList` from the plugin's utils library: `isinstance(x, list)`. -/
def Json.isList : Json → Bool
  | .arr _ => true
  | _ => false

/-- The underlying list of a JSON array (only consulted under `isList`). -/
def Json.asList : Json → List Json
  | .arr xs => xs
  | _ => []

/-- Python dictionary indexing `d[k]`: `some` value when `d` is an object
containing key `k` (first occurrence), `none` when the key is missing or the
value is not a dictionary (in Python these raise `KeyError` / `TypeError`). -/
def Json.getField : Json → String → Option Json
  | .obj fs, k => fs.lookup k
  | _, _ => none

mutual

/-- Python `repr()` of a decoded JSON value. -/
def pyRepr : Json → String
  | .null => "None"
  | .bool b => if b then "True" else "False"
  | .num n => toString n
  | .str s => "'" ++ s ++ "'"
  | .arr xs => "[" ++ ", ".intercalate (pyReprList xs) ++ "]"
  | .obj fs => "\x7b" ++ ", ".intercalate (pyReprFields fs) ++ "\x7d"

def pyReprList : List Json → List String
  | [] => []
  | x :: xs => pyRepr x :: pyReprList xs

def pyReprFields : List (String × Json) → List String
  | [] => []
  | (k, v) :: fs => ("'" ++ k ++ "': " ++ pyRepr v) :: pyReprFields fs

end

/-- Python `str()` of a decoded JSON value, as used by `'{0}'.format(x)`:
strings print bare, every other value prints as its `repr`. -/
def pyStr (j : Json) : String :=
  match j with
  | .str s => s
  | _ => pyRepr j

/-- Python `==` between a JSON value and a `str`: true exactly for an equal
string (a non-string value never equals a string). -/
def jsonEqStr (j : Json) (s : String) : Bool :=
  match j with
  | .str t => t == s
  | _ => false

/-- Python truthiness of an optional CLI string (`self.policy_id` /
`self.policy_name` are `None` or the flag's string value). -/
def truthyOpt : Option String → Bool
  | none => false
  | some s => s != ""

/-- Python `'{0}'.format(x)` of an optional CLI string: `None` prints as
`"None"`. -/
def pyFmtOptStr : Option String → String
  | none => "None"
  | some s => s

/-- The plugin attributes consulted by the embedded core (set in
`__init__` / `process_options`): `self.policy_name`, `self.policy_id`,
`self.no_audit`, `self.recursive`, `self.list_policies`, `self.verbose`,
`self.host`, `self.port`. -/
structure Opts where
  policy_name : Option String
  policy_id : Option String
  no_audit : Bool
  recursive : Bool
  list_policies : Bool
  verbose : Bool
  host : String
  port : String

/-- Modelled from the spec: the plugin framework's severity bookkeeping
(`self.critical()` escalates, severity starts at OK and never downgrades). -/
inductive Severity where
  | ok
  | critical
deriving DecidableEq, Repr

/-- The observable result of one run of the embedded core.
`critical`/`unknown` are the `CriticalError`/`UnknownError` exceptions raised
by `parse_json`; `listed` is the `--list-policies` branch (prints and exits
UNKNOWN); `exn` is an uncaught Python exception (`KeyError`, `TypeError`,
`AssertionError`); `verdict` is a completed check with the accumulated
severity and `self.msg`. -/
inductive Outcome where
  | critical (msg : String)
  | unknown (msg : String)
  | listed (lines : List String)
  | exn (e : String)
  | verdict (sev : Severity) (msg : String)
deriving DecidableEq, Repr

/-- The monitoring status the framework finally reports for an outcome.
Modelled from the spec: `CriticalError` → CRITICAL, `UnknownError` → UNKNOWN,
the listing branch exits `ERRORS['UNKNOWN']`, an uncaught exception is
surfaced as unknown/fatal, and a completed verdict carries its accumulated
severity. -/
inductive FinalStatus where
  | OK
  | CRITICAL
  | UNKNOWN
deriving DecidableEq, Repr

def Outcome.surfaced : Outcome → FinalStatus
  | .critical _ => .CRITICAL
  | .unknown _ => .UNKNOWN
  | .listed _ => .UNKNOWN
  | .exn _ => .UNKNOWN
  | .verdict .ok _ => .OK
  | .verdict .critical _ => .CRITICAL

/-- `host_info` as computed at lines 126–128 of the source. -/
def hostInfo (o : Opts) : String :=
  if o.verbose then " at '" ++ o.host ++ ":" ++ o.port ++ "'" else ""

/-- `check_policy` (source lines 153–176).  Field accesses
`policy['policyName']`, `policy['id']`, `policy['isEnabled']`,
`policy['isAuditEnabled']`, `policy['isRecursive']` raise on a missing key;
the `assert str(policy_id) == str(self.policy_id)` guard raises
`AssertionError`; otherwise the message is accumulated clause by clause and
`self.critical()` escalates the severity. -/
def check_policy (o : Opts) (policy : Json) : Outcome :=
  match policy.getField "policyName", policy.getField "id" with
  | some policy_name, some policy_id =>
    if truthyOpt o.policy_id && !(pyStr policy_id == (o.policy_id).getD "None") then
      .exn "AssertionError"
    else
      match policy.getField "isEnabled", policy.getField "isAuditEnabled",
            policy.getField "isRecursive" with
      | some enabled, some auditing, some recursive =>
        let msg0 := "Ranger policy id '" ++ pyStr policy_id ++ "' name '" ++ pyStr policy_name ++ "'"
        let step1 : Severity × String :=
          match o.policy_name with
          | some n =>
            if jsonEqStr policy_name n then (.ok, msg0)
            else (.critical, msg0 ++ " (expected '" ++ n ++ "')")
          | none => (.ok, msg0)
        let msg2 := step1.2 ++ ", enabled = " ++ pyStr enabled
        let step2 : Severity × String :=
          if enabled.truthy then (step1.1, msg2) else (.critical, msg2 ++ " (expected True)")
        let msg3 := step2.2 ++ ", auditing = " ++ pyStr auditing
        let step3 : Severity × String :=
          if !auditing.truthy && !o.no_audit then (.critical, msg3 ++ " (expected True)")
          else (step2.1, msg3)
        let msg4 := step3.2 ++ ", recursive = " ++ pyStr recursive
        let step4 : Severity × String :=
          if o.recursive && !recursive.truthy then (.critical, msg4 ++ " (expected True)")
          else (step3.1, msg4)
        .verdict step4.1 step4.2
      | _, _, _ => .exn "KeyError"
  | _, _ => .exn "KeyError"

/-- The `cols` dictionary of `print_policies` (source lines 180–189), in
Python 3 insertion order; the table columns are printed in the order of the
`columns` tuple (line 204). -/
def cols : List (String × String) :=
  [("Name", "policyName"), ("RepoName", "repositoryName"), ("RepoType", "repositoryType"),
   ("Description", "description"), ("Enabled", "isEnabled"), ("Audit", "isAuditEnabled"),
   ("Recursive", "isRecursive"), ("Id", "id")]

/-- One iteration of the width-scanning loop (source lines 195–202) for
column `c` whose payload field is `field`: `width = len(str(_[cols[col]]))`,
then widen `widths[col]` if larger. -/
def updCol (r : Json) (c field : String) (w : String → Nat) :
    Except String (String → Nat) :=
  match r.getField field with
  | none => .error "KeyError"
  | some v =>
    let width := (pyStr v).length
    .ok (fun x => if x = c then (if width > w x then width else w x) else w x)

/-- The inner `for col in cols` width-scanning loop for one record, unrolled
over the fixed `cols` dictionary; `Description` is skipped by the `continue`
at lines 196–197. -/
def updateWidths (r : Json) (w : String → Nat) : Except String (String → Nat) := do
  let w ← updCol r "Name" "policyName" w
  let w ← updCol r "RepoName" "repositoryName" w
  let w ← updCol r "RepoType" "repositoryType" w
  let w ← updCol r "Enabled" "isEnabled" w
  let w ← updCol r "Audit" "isAuditEnabled" w
  let w ← updCol r "Recursive" "isRecursive" w
  let w ← updCol r "Id" "id" w
  return w

/-- Modelled from the spec: `jsonpp` from the plugin's utils library (not
under src/) pretty-prints one record as a structural dump; modelled as the
record's `repr`. -/
def jsonpp (j : Json) : String :=
  pyRepr j

/-- The first loop of `print_policies` (source lines 193–202): for each
record print its `jsonpp` dump and fold the column widths. -/
def dumpAndWidths : List Json → (String → Nat) → Except String (List String × (String → Nat))
  | [], w => .ok ([], w)
  | r :: rs, w =>
    match updateWidths r w with
    | .error e => .error e
    | .ok w2 =>
      match dumpAndWidths rs w2 with
      | .error e => .error e
      | .ok (lines, w3) => .ok (jsonpp r :: lines, w3)

/-- Python left justification `'{0:{1}}'.format(s, width)` for a `str`. -/
def ljust (s : String) (width : Nat) : String :=
  s ++ String.mk (List.replicate (width - s.length) ' ')

/-- Python right justification: numbers (and `bool`, an `int` subclass)
format right-aligned under a width spec. -/
def rjust (s : String) (width : Nat) : String :=
  String.mk (List.replicate (width - s.length) ' ') ++ s

/-- Python `'{0:{1}}'.format(v, width)` for a decoded JSON cell value:
strings left-justify, integers right-justify, `True`/`False` format as the
integers `1`/`0` right-justified; `None`, lists and dictionaries raise
`TypeError` under a non-empty format spec. -/
def formatCell (v : Json) (width : Nat) : Except String String :=
  match v with
  | .str s => .ok (ljust s width)
  | .num n => .ok (rjust (toString n) width)
  | .bool b => .ok (rjust (if b then "1" else "0") width)
  | _ => .error "TypeError"

/-- One cell of a table row (source line 214): fetch `_[cols[col]]` and
format it to the column's width followed by the two-space separator. -/
def cellFor (r : Json) (field : String) (width : Nat) : Except String String :=
  match r.getField field with
  | none => .error "KeyError"
  | some v =>
    match formatCell v width with
    | .error e => .error e
    | .ok s => .ok (s ++ "  ")

/-- One printed table row (source lines 212–215), unrolled over the fixed
`columns` tuple `(Id, Name, RepoName, RepoType, Enabled, Audit, Recursive,
Description)`. -/
def formatRow (r : Json) (w : String → Nat) : Except String String := do
  let c1 ← cellFor r "id" (w "Id")
  let c2 ← cellFor r "policyName" (w "Name")
  let c3 ← cellFor r "repositoryName" (w "RepoName")
  let c4 ← cellFor r "repositoryType" (w "RepoType")
  let c5 ← cellFor r "isEnabled" (w "Enabled")
  let c6 ← cellFor r "isAuditEnabled" (w "Audit")
  let c7 ← cellFor r "isRecursive" (w "Recursive")
  let c8 ← cellFor r "description" (w "Description")
  return c1 ++ c2 ++ c3 ++ c4 ++ c5 ++ c6 ++ c7 ++ c8

/-- The second `for _ in policy_list` loop: one table row per record. -/
def rowsFor (w : String → Nat) : List Json → Except String (List String)
  | [] => .ok []
  | r :: rs =>
    match formatRow r w with
    | .error e => .error e
    | .ok line =>
      match rowsFor w rs with
      | .error e => .error e
      | .ok lines => .ok (line :: lines)

/-- The table column order of source line 204. -/
def columnsOrder : List String :=
  ["Id", "Name", "RepoName", "RepoType", "Enabled", "Audit", "Recursive", "Description"]

/-- The header row (source lines 208–210): each heading left-justified to its
column width followed by two spaces. -/
def headerLine (w : String → Nat) : String :=
  String.join (columnsOrder.map (fun h => ljust h (w h) ++ "  "))

/-- `total_width` (source lines 203–206): each column width plus 2. -/
def totalWidth (w : String → Nat) : Nat :=
  columnsOrder.foldl (fun acc h => acc + (w h + 2)) 0

/-- `print_policies` (source lines 178–215) as the ordered sequence of
printed chunks: per-record `jsonpp` dumps, a `=` border, the header row, the
border again, then one row per record.  A missing field or unformattable
cell raises (`KeyError` / `TypeError`). -/
def print_policies (policy_list : List Json) : Except String (List String) :=
  match dumpAndWidths policy_list (fun c => c.length) with
  | .error e => .error e
  | .ok (dumps, w) =>
    let border := String.mk (List.replicate (totalWidth w) '=')
    match rowsFor w policy_list with
    | .error e => .error e
    | .ok rows => .ok (dumps ++ [border, headerLine w, border] ++ rows)

/-- The `CriticalError` message of source line 147–149. -/
def noMatchMsg (o : Opts) : String :=
  "no matching policy found with name '" ++ pyFmtOptStr o.policy_name ++
    "' in policy list returned by Ranger" ++ hostInfo o

/-- The scanning loop of source lines 141–144: the first record whose
`policyName` equals `self.policy_name`; touching a record without the key
raises. -/
def scanPolicy (name : String) : List Json → Except String (Option Json)
  | [] => .ok none
  | p :: ps =>
    match p.getField "policyName" with
    | none => .error "KeyError"
    | some v => if jsonEqStr v name then .ok (some p) else scanPolicy name ps

/-- `parse_json` from source line 124 on, once `policy` and `policy_list`
have been computed: the empty/falsy-collection check (line 124), the
`isList` check (129), the listing branch (136–138), the by-name scan
(140–144) and the final falsy-policy check (146–149) feeding
`check_policy`. -/
def afterList (o : Opts) (policy : Option Json) (policy_list : Json) : Outcome :=
  if policy_list.truthy = false then .critical "no Ranger policies found!"
  else if policy_list.isList = false then
    .unknown ("non-list returned for json_data[vXPolicies] by Ranger" ++ hostInfo o)
  else if o.list_policies then
    match print_policies policy_list.asList with
    | .ok lines => .listed lines
    | .error e => .exn e
  else
    let scanned : Except String (Option Json) :=
      if policy.isNone && truthyOpt o.policy_name then
        scanPolicy ((o.policy_name).getD "") policy_list.asList
      else .ok policy
    match scanned with
    | .error e => .exn e
    | .ok (some p) => if p.truthy then check_policy o p else .critical (noMatchMsg o)
    | .ok none => .critical (noMatchMsg o)

/-- `parse_json` (source lines 117–151).  With a truthy `self.policy_id` the
payload itself is the policy and is wrapped into a one-element list (lines
119–121); when `self.policy_id` is falsy or `--list-policies` is given the
collection is `json_data['vXPolicies']` (lines 122–123), whose failed lookup
raises. -/
def parse_json (o : Opts) (json_data : Json) : Outcome :=
  let policy : Option Json := if truthyOpt o.policy_id then some json_data else none
  if truthyOpt o.policy_id = false ∨ o.list_policies = true then
    match json_data.getField "vXPolicies" with
    | none => .exn "KeyError"
    | some pl => afterList o policy pl
  else
    afterList o policy (.arr [json_data])

/-! ## Helper characterizations used by the theorems -/

/-- Whether the `--name` cross-check clause of `check_policy` fires: a name
was requested (`is not None`) and differs from the record's `policyName`. -/
def nameMismatchB (o : Opts) (pname : Json) : Bool :=
  match o.policy_name with
  | some n => !(jsonEqStr pname n)
  | none => false

/-- The name-mismatch clause appended by `check_policy`. -/
def expectedNameClause (o : Opts) (pname : Json) : String :=
  match o.policy_name with
  | some n => if jsonEqStr pname n then "" else " (expected '" ++ n ++ "')"
  | none => ""

/-- Closed form of the severity accumulated by `check_policy`. -/
def finalSev (o : Opts) (pname e a r : Json) : Severity :=
  if o.recursive && !r.truthy then .critical
  else if !a.truthy && !o.no_audit then .critical
  else if !e.truthy then .critical
  else if nameMismatchB o pname then .critical
  else .ok

/-- Closed form of the message accumulated by `check_policy`. -/
def finalMsg (o : Opts) (pname pid e a r : Json) : String :=
  "Ranger policy id '" ++ pyStr pid ++ "' name '" ++ pyStr pname ++ "'" ++
    expectedNameClause o pname ++
    ", enabled = " ++ pyStr e ++ (if e.truthy then "" else " (expected True)") ++
    ", auditing = " ++ pyStr a ++ (if !a.truthy && !o.no_audit then " (expected True)" else "") ++
    ", recursive = " ++ pyStr r ++ (if o.recursive && !r.truthy then " (expected True)" else "")

/-- `pat` occurs as a contiguous substring of `s`. -/
def strInfix (pat s : String) : Prop :=
  ∃ pre post, s = pre ++ pat ++ post

theorem getField_truthy {j : Json} {k : String} {v : Json}
    (h : j.getField k = some v) : j.truthy = true := by
  cases j <;> simp [Json.getField] at h
  next fs =>
    cases fs with
    | nil => simp [List.lookup] at h
    | cons p ps => simp [Json.truthy]

/-- When all five checked fields are present and the id assertion cannot
fire, `check_policy` completes with the closed-form severity and message. -/
theorem check_policy_shape (o : Opts) (policy pname pid e a r : Json)
    (hn : policy.getField "policyName" = some pname)
    (hi : policy.getField "id" = some pid)
    (he : policy.getField "isEnabled" = some e)
    (ha : policy.getField "isAuditEnabled" = some a)
    (hr : policy.getField "isRecursive" = some r)
    (hassert : truthyOpt o.policy_id = true → pyStr pid = (o.policy_id).getD "None") :
    check_policy o policy = .verdict (finalSev o pname e a r) (finalMsg o pname pid e a r) := by
  have hc : (truthyOpt o.policy_id && !(pyStr pid == (o.policy_id).getD "None")) = false := by
    cases ht : truthyOpt o.policy_id with
    | false => simp
    | true => simp [hassert ht]
  simp only [check_policy, hn, hi, he, ha, hr, hc, Bool.false_eq_true, if_false]
  cases hpn : o.policy_name with
  | none =>
    cases he2 : e.truthy <;> cases ha2 : (!a.truthy && !o.no_audit) <;>
      cases hr2 : (o.recursive && !r.truthy) <;>
      simp [finalSev, finalMsg, nameMismatchB, expectedNameClause, hpn, he2, ha2, hr2,
        String.append_assoc]
  | some n =>
    cases hj : jsonEqStr pname n <;> cases he2 : e.truthy <;>
      cases ha2 : (!a.truthy && !o.no_audit) <;> cases hr2 : (o.recursive && !r.truthy) <;>
      simp [finalSev, finalMsg, nameMismatchB, expectedNameClause, hpn, hj, he2, ha2, hr2,
        String.append_assoc] <;>
      (apply String.ext; simp [String.data_append])

/-- In direct-lookup mode (truthy `--id`, no listing) with a truthy payload,
`parse_json` hands the payload itself to `check_policy`. -/
theorem parse_json_direct (o : Opts) (payload : Json)
    (h1 : truthyOpt o.policy_id = true) (h2 : o.list_policies = false)
    (h3 : payload.truthy = true) :
    parse_json o payload = check_policy o payload := by
  have harr : (Json.arr [payload]).truthy = true := rfl
  simp [parse_json, h1, h2, afterList, harr, Json.isList, Json.asList, h3]

/-! ## Concrete fixtures -/

/-- Criteria `byName = "p1"`, default config, non-verbose. -/
def c1Opts : Opts := ⟨some "p1", none, false, false, false, false, "", ""⟩

/-- The record of the spec's first scenario. -/
def c1Record : Json :=
  .obj [("id", .num 1), ("policyName", .str "p1"), ("isEnabled", .bool true),
        ("isAuditEnabled", .bool true), ("isRecursive", .bool false)]

/-- The payload of the spec's first scenario. -/
def c1Payload : Json := .obj [("vXPolicies", .arr [c1Record])]

/-- Listing mode, non-verbose, no criteria. -/
def c2Opts : Opts := ⟨none, none, false, false, true, false, "", ""⟩

/-- A record whose integer id `2` matches the requested id string `"2"`. -/
def c9Rec : Json :=
  .obj [("id", .num 2), ("policyName", .str "p1"), ("isEnabled", .bool true),
        ("isAuditEnabled", .bool true), ("isRecursive", .bool true)]

/-- A record carrying all eight table fields. -/
def fullRecord : Json :=
  .obj [("id", .num 1), ("policyName", .str "p1"), ("isEnabled", .bool true),
        ("isAuditEnabled", .bool true), ("isRecursive", .bool false),
        ("repositoryName", .str "repo"), ("repositoryType", .str "hive"),
        ("description", .str "d")]

/-! ## C1 -/

/-- C1, counterexample: on the scenario payload and criteria the code's
message starts with the service display name — it is
`Ranger policy id '1' name 'p1', …`, not `policy id '1' name 'p1', …` as
claimed, so the outcome is not the claimed one. -/
theorem c1_counterexample :
    parse_json c1Opts c1Payload =
      .verdict .ok
        "Ranger policy id '1' name 'p1', enabled = True, auditing = True, recursive = False" ∧
    parse_json c1Opts c1Payload ≠
      .verdict .ok
        "policy id '1' name 'p1', enabled = True, auditing = True, recursive = False" := by
  constructor <;> decide

/-- C1 (corrected): for the scenario payload with criteria `byName = "p1"`
and the default config, the check returns severity OK and the message is
exactly `Ranger policy id '1' name 'p1', enabled = True, auditing = True,
recursive = False`. -/
theorem c1_amended :
    parse_json c1Opts c1Payload =
      .verdict .ok
        "Ranger policy id '1' name 'p1', enabled = True, auditing = True, recursive = False" := by
  decide

/-! ## C3 -/

/-- C3, counterexample: the payload `{"vXPolicies": null}` has a
non-sequence `vXPolicies` value, yet the check raises the CRITICAL
"no Ranger policies found!" error (the falsy-collection check at line 124
runs before the `isList` check at line 129), not an unknown result. -/
theorem c3_counterexample :
    Json.null.isList = false ∧
    parse_json c1Opts (.obj [("vXPolicies", .null)]) = .critical "no Ranger policies found!" ∧
    (parse_json c1Opts (.obj [("vXPolicies", .null)])).surfaced = .CRITICAL := by
  refine ⟨rfl, ?_, ?_⟩ <;> decide

/-- C3 (corrected): in non-direct-lookup mode, an absent `vXPolicies` field
raises an uncaught lookup error surfaced as unknown, and a present
non-sequence value raises the malformed-shape unknown error only when it is
truthy; a falsy non-sequence value instead raises the CRITICAL
"no Ranger policies found!" error. -/
theorem c3_amended (o : Opts) (payload : Json)
    (h1 : truthyOpt o.policy_id = false) :
    (payload.getField "vXPolicies" = none →
      parse_json o payload = .exn "KeyError" ∧ (parse_json o payload).surfaced = .UNKNOWN) ∧
    (∀ v, payload.getField "vXPolicies" = some v → v.isList = false →
      (v.truthy = true →
        parse_json o payload =
          .unknown ("non-list returned for json_data[vXPolicies] by Ranger" ++ hostInfo o) ∧
        (parse_json o payload).surfaced = .UNKNOWN) ∧
      (v.truthy = false → parse_json o payload = .critical "no Ranger policies found!")) := by
  constructor
  · intro hnone
    simp [parse_json, h1, hnone, Outcome.surfaced]
  · intro v hv hnl
    constructor
    · intro htr
      simp [parse_json, h1, hv, afterList, htr, hnl, Outcome.surfaced]
    · intro hfa
      simp [parse_json, h1, hv, afterList, hfa]

/-- C3 witness: a truthy non-sequence `vXPolicies` value is the
malformed-shape unknown error. -/
theorem c3_witness :
    parse_json c1Opts (.obj [("vXPolicies", .str "x")]) =
      .unknown ("non-list returned for json_data[vXPolicies] by Ranger" ++ hostInfo c1Opts) ∧
    (parse_json c1Opts (.obj [("vXPolicies", .str "x")])).surfaced = .UNKNOWN :=
  ((c3_amended c1Opts (.obj [("vXPolicies", .str "x")]) rfl).2
    (.str "x") rfl rfl).1 (by decide)

/-! ## C4 -/

/-- C4 (confirmed): whenever the policy collection consulted by the check is
present but empty — `json_data['vXPolicies'] == []` in non-direct or listing
mode, or any empty `policy_list` reaching line 124 under arbitrary criteria —
the check raises the CRITICAL "no Ranger policies found!" error. -/
theorem c4_confirmed (o : Opts) (payload : Json)
    (h1 : payload.getField "vXPolicies" = some (.arr []))
    (h2 : truthyOpt o.policy_id = false ∨ o.list_policies = true) :
    parse_json o payload = .critical "no Ranger policies found!" ∧
    ∀ (o2 : Opts) (policy : Option Json),
      afterList o2 policy (.arr []) = .critical "no Ranger policies found!" := by
  constructor
  · rcases h2 with h2 | h2 <;> simp [parse_json, h2, h1, afterList, Json.truthy]
  · intro o2 policy
    simp [afterList, Json.truthy]

/-- C4 witness: criteria `byName = "p1"` against `{"vXPolicies": []}`. -/
theorem c4_witness :
    parse_json c1Opts (.obj [("vXPolicies", .arr [])]) = .critical "no Ranger policies found!" ∧
    ∀ (o2 : Opts) (policy : Option Json),
      afterList o2 policy (.arr []) = .critical "no Ranger policies found!" :=
  c4_confirmed c1Opts (.obj [("vXPolicies", .arr [])]) rfl (Or.inl rfl)

/-! ## C9 -/

/-- C9 (confirmed): with `--id` set, `check_policy` compares the record's
`id` with the requested id after converting both to strings; equal string
forms let the validation proceed to a verdict, and any mismatch raises an
`AssertionError`, surfaced as unknown/fatal and distinct from the CRITICAL
health-check outcome. -/
theorem c9_confirmed (o : Opts) (policy pname pid e a r : Json)
    (hn : policy.getField "policyName" = some pname)
    (hi : policy.getField "id" = some pid)
    (he : policy.getField "isEnabled" = some e)
    (ha : policy.getField "isAuditEnabled" = some a)
    (hr : policy.getField "isRecursive" = some r)
    (hid : truthyOpt o.policy_id = true) :
    (pyStr pid = (o.policy_id).getD "None" →
      check_policy o policy = .verdict (finalSev o pname e a r) (finalMsg o pname pid e a r)) ∧
    (pyStr pid ≠ (o.policy_id).getD "None" →
      check_policy o policy = .exn "AssertionError" ∧
      (check_policy o policy).surfaced = .UNKNOWN ∧
      (check_policy o policy).surfaced ≠ .CRITICAL) := by
  constructor
  · intro hpass
    exact check_policy_shape o policy pname pid e a r hn hi he ha hr fun _ => hpass
  · intro hne
    have hb : (pyStr pid == (o.policy_id).getD "None") = false := by
      simpa using hne
    have hx : check_policy o policy = .exn "AssertionError" := by
      simp [check_policy, hn, hi, hid, hb]
    refine ⟨hx, ?_, ?_⟩ <;> rw [hx] <;> simp [Outcome.surfaced]

/-- C9 witness: integer id `2` against requested id string `"2"` passes the
string-normalized comparison; id `3` against `"2"` is an assertion failure. -/
theorem c9_witness :
    (pyStr (.num 2) = ((⟨some "p1", some "2", false, false, false, false, "", ""⟩ : Opts).policy_id).getD "None" →
      check_policy ⟨some "p1", some "2", false, false, false, false, "", ""⟩ c9Rec =
        .verdict (finalSev ⟨some "p1", some "2", false, false, false, false, "", ""⟩ (.str "p1") (.bool true) (.bool true) (.bool true))
          (finalMsg ⟨some "p1", some "2", false, false, false, false, "", ""⟩ (.str "p1") (.num 2) (.bool true) (.bool true) (.bool true))) ∧
    (pyStr (.num 2) ≠ ((⟨some "p1", some "2", false, false, false, false, "", ""⟩ : Opts).policy_id).getD "None" →
      check_policy ⟨some "p1", some "2", false, false, false, false, "", ""⟩ c9Rec = .exn "AssertionError" ∧
      (check_policy ⟨some "p1", some "2", false, false, false, false, "", ""⟩ c9Rec).surfaced = .UNKNOWN ∧
      (check_policy ⟨some "p1", some "2", false, false, false, false, "", ""⟩ c9Rec).surfaced ≠ .CRITICAL) :=
  c9_confirmed _ c9Rec (.str "p1") (.num 2) (.bool true) (.bool true) (.bool true)
    rfl rfl rfl rfl rfl rfl

/-! ## C10 -/

/-- C10 (confirmed): in direct-lookup mode a falsy decoded payload (such as
an empty object) skips the by-name scan and falls through to the CRITICAL
"no matching policy found with name 'None' …" error, where `'None'` is the
formatting of the unset `--name` option. -/
theorem c10_confirmed (o : Opts) (payload : Json)
    (h1 : truthyOpt o.policy_id = true) (h2 : o.list_policies = false)
    (h3 : o.policy_name = none) (h4 : payload.truthy = false) :
    parse_json o payload =
      .critical ("no matching policy found with name 'None' in policy list returned by Ranger"
        ++ hostInfo o) := by
  have harr : (Json.arr [payload]).truthy = true := rfl
  have hcrit : parse_json o payload = .critical (noMatchMsg o) := by
    simp [parse_json, h1, h2, afterList, harr, Json.isList, Json.asList, h4]
  rw [hcrit]
  congr 1
  simp only [noMatchMsg, h3, pyFmtOptStr]
  apply String.ext
  simp [String.data_append]

/-- C10 witness: empty-object payload with `--id 2` and no `--name`. -/
theorem c10_witness :
    parse_json ⟨none, some "2", false, false, false, false, "", ""⟩ (.obj []) =
      .critical ("no matching policy found with name 'None' in policy list returned by Ranger"
        ++ hostInfo ⟨none, some "2", false, false, false, false, "", ""⟩) :=
  c10_confirmed ⟨none, some "2", false, false, false, false, "", ""⟩ (.obj []) rfl rfl rfl rfl

/-! ## C6 -/

/-- C6 (confirmed): however the remaining fields and config flags are set,
a validated record with `isEnabled = false` yields severity CRITICAL and a
message containing the clause `enabled = False (expected True)`. -/
theorem c6_confirmed (o : Opts) (policy pname pid a r : Json)
    (hn : policy.getField "policyName" = some pname)
    (hi : policy.getField "id" = some pid)
    (he : policy.getField "isEnabled" = some (.bool false))
    (ha : policy.getField "isAuditEnabled" = some a)
    (hr : policy.getField "isRecursive" = some r)
    (hassert : truthyOpt o.policy_id = true → pyStr pid = (o.policy_id).getD "None") :
    ∃ msg, check_policy o policy = .verdict .critical msg ∧
      strInfix "enabled = False (expected True)" msg := by
  have h := check_policy_shape o policy pname pid (.bool false) a r hn hi he ha hr hassert
  have hsev : finalSev o pname (.bool false) a r = .critical := by
    unfold finalSev
    split_ifs <;> simp_all [Json.truthy]
  refine ⟨finalMsg o pname pid (.bool false) a r, by rw [h, hsev], ?_⟩
  refine ⟨"Ranger policy id '" ++ pyStr pid ++ "' name '" ++ pyStr pname ++ "'" ++
      expectedNameClause o pname ++ ", ",
    ", auditing = " ++ pyStr a ++ (if !a.truthy && !o.no_audit then " (expected True)" else "") ++
      ", recursive = " ++ pyStr r ++ (if o.recursive && !r.truthy then " (expected True)" else ""),
    ?_⟩
  simp only [finalMsg]
  apply String.ext
  simp [String.data_append, pyStr, pyRepr, Json.truthy]

/-- C6 witness: a disabled record matching the requested name. -/
theorem c6_witness :
    ∃ msg, check_policy c1Opts
        (.obj [("id", .num 5), ("policyName", .str "p1"), ("isEnabled", .bool false),
               ("isAuditEnabled", .bool true), ("isRecursive", .bool false)]) =
      .verdict .critical msg ∧ strInfix "enabled = False (expected True)" msg :=
  c6_confirmed c1Opts _ (.str "p1") (.num 5) (.bool true) (.bool false)
    rfl rfl rfl rfl rfl (by decide)

/-! ## C7 -/

/-- C7 (confirmed): with all fields present and the id assertion passing,
the verdict severity is CRITICAL exactly when the name mismatches, or the
record is disabled, or it is unaudited while auditing is required
(`--no-audit` absent), or it is non-recursive while `--recursive` was
requested; a waived or unrequested clause never contributes on its own. -/
theorem c7_confirmed (o : Opts) (policy pname pid e a r : Json)
    (hn : policy.getField "policyName" = some pname)
    (hi : policy.getField "id" = some pid)
    (he : policy.getField "isEnabled" = some e)
    (ha : policy.getField "isAuditEnabled" = some a)
    (hr : policy.getField "isRecursive" = some r)
    (hassert : truthyOpt o.policy_id = true → pyStr pid = (o.policy_id).getD "None") :
    ∃ msg, check_policy o policy =
      .verdict
        (if nameMismatchB o pname || !e.truthy || (!a.truthy && !o.no_audit) ||
            (o.recursive && !r.truthy) then .critical else .ok)
        msg := by
  refine ⟨finalMsg o pname pid e a r, ?_⟩
  rw [check_policy_shape o policy pname pid e a r hn hi he ha hr hassert]
  congr 1
  cases b1 : nameMismatchB o pname <;> cases b2 : e.truthy <;>
    cases b3 : (!a.truthy && !o.no_audit) <;> cases b4 : (o.recursive && !r.truthy) <;>
    simp [finalSev, b1, b2, b3, b4]

/-- C7 witness: an enabled, unaudited, non-recursive record with matching
name under the default config is CRITICAL through the audit clause alone. -/
theorem c7_witness :
    ∃ msg, check_policy c1Opts
        (.obj [("id", .num 5), ("policyName", .str "p1"), ("isEnabled", .bool true),
               ("isAuditEnabled", .bool false), ("isRecursive", .bool false)]) =
      .verdict
        (if nameMismatchB c1Opts (.str "p1") || !(Json.bool true).truthy ||
            (!(Json.bool false).truthy && !c1Opts.no_audit) ||
            (c1Opts.recursive && !(Json.bool false).truthy) then .critical else .ok)
        msg :=
  c7_confirmed c1Opts _ (.str "p1") (.num 5) (.bool true) (.bool false) (.bool false)
    rfl rfl rfl rfl rfl (by decide)

/-! ## C8 -/

set_option maxHeartbeats 1000000 in
/-- C8 (confirmed): a direct-id lookup whose returned record bears a
different name and is disabled yields a CRITICAL verdict whose message holds
the name-mismatch clause and an `(expected True)` clause for `enabled`
simultaneously. -/
theorem c8_confirmed (o : Opts) (payload pname pid e a r : Json) (n : String)
    (h1 : truthyOpt o.policy_id = true) (h2 : o.list_policies = false)
    (h3 : o.policy_name = some n)
    (hn : payload.getField "policyName" = some pname)
    (hi : payload.getField "id" = some pid)
    (he : payload.getField "isEnabled" = some e)
    (ha : payload.getField "isAuditEnabled" = some a)
    (hr : payload.getField "isRecursive" = some r)
    (hassert : pyStr pid = (o.policy_id).getD "None")
    (hmm : jsonEqStr pname n = false)
    (hen : e.truthy = false) :
    ∃ pre mid post, parse_json o payload =
      .verdict .critical
        (pre ++ (" (expected '" ++ n ++ "')") ++ mid ++ " (expected True)" ++ post) := by
  rw [parse_json_direct o payload h1 h2 (getField_truthy hn),
    check_policy_shape o payload pname pid e a r hn hi he ha hr fun _ => hassert]
  refine ⟨"Ranger policy id '" ++ pyStr pid ++ "' name '" ++ pyStr pname ++ "'",
    ", enabled = " ++ pyStr e,
    ", auditing = " ++ pyStr a ++ (if !a.truthy && !o.no_audit then " (expected True)" else "") ++
      ", recursive = " ++ pyStr r ++ (if o.recursive && !r.truthy then " (expected True)" else ""),
    ?_⟩
  congr 1
  · unfold finalSev
    split_ifs <;> simp_all
  · simp only [finalMsg, expectedNameClause, h3, hmm, hen]
    apply String.ext
    simp [String.data_append]

/-- C8 witness: the spec's direct-id scenario, id 2 named `other`,
disabled, with criteria id `"2"` and name `"p1"`. -/
theorem c8_witness :
    ∃ pre mid post,
      parse_json ⟨some "p1", some "2", false, false, false, false, "", ""⟩
        (.obj [("id", .num 2), ("policyName", .str "other"), ("isEnabled", .bool false),
               ("isAuditEnabled", .bool true), ("isRecursive", .bool true)]) =
      .verdict .critical
        (pre ++ (" (expected '" ++ "p1" ++ "')") ++ mid ++ " (expected True)" ++ post) :=
  c8_confirmed ⟨some "p1", some "2", false, false, false, false, "", ""⟩ _
    (.str "other") (.num 2) (.bool false) (.bool true) (.bool true) "p1"
    rfl rfl rfl rfl rfl rfl rfl rfl rfl rfl rfl

/-! ## C5 -/

/-- The predicate the by-name scan tests on each record:
`_['policyName'] == self.policy_name`. -/
def matchName (name : String) (r0 : Json) : Bool :=
  match r0.getField "policyName" with
  | some v => jsonEqStr v name
  | none => false

theorem scanPolicy_eq_find (name : String) (records : List Json)
    (h : ∀ r0 ∈ records, (r0.getField "policyName").isSome = true) :
    scanPolicy name records = .ok (records.find? (matchName name)) := by
  induction records with
  | nil => simp [scanPolicy]
  | cons p ps ih =>
    obtain ⟨v, hv⟩ := Option.isSome_iff_exists.mp (h p (by simp))
    have hrest := ih fun r0 hr0 => h r0 (by simp [hr0])
    cases hj : jsonEqStr v name <;>
      simp [scanPolicy, List.find?, matchName, hv, hj, hrest]

theorem matchName_truthy {name : String} {r0 : Json} (h : matchName name r0 = true) :
    r0.truthy = true := by
  unfold matchName at h
  cases hg : r0.getField "policyName" with
  | none => rw [hg] at h; simp at h
  | some v => exact getField_truthy hg

/-- C5 (confirmed): in non-direct-lookup mode with `--name` set, the check
hands the first record (in original order) whose `policyName` equals the
requested name — exact, case-sensitive comparison — to the validator; when
no record's name matches, it raises the CRITICAL not-found error embedding
the requested name, never validating a non-matching record. -/
theorem c5_confirmed (o : Opts) (payload : Json) (records : List Json) (name : String)
    (h1 : truthyOpt o.policy_id = false) (h2 : o.list_policies = false)
    (h3 : o.policy_name = some name) (h4 : name ≠ "")
    (h5 : payload.getField "vXPolicies" = some (.arr records))
    (h6 : records ≠ [])
    (h7 : ∀ r0 ∈ records, (r0.getField "policyName").isSome = true) :
    (∀ p, records.find? (matchName name) = some p → parse_json o payload = check_policy o p) ∧
    (records.find? (matchName name) = none →
      parse_json o payload =
        .critical ("no matching policy found with name '" ++ name ++
          "' in policy list returned by Ranger" ++ hostInfo o)) := by
  have htr : (Json.arr records).truthy = true := by
    simp [Json.truthy, h6]
  have hname : truthyOpt o.policy_name = true := by
    simp [h3, truthyOpt, h4]
  have key : parse_json o payload =
      match records.find? (matchName name) with
      | some p => if p.truthy then check_policy o p else .critical (noMatchMsg o)
      | none => .critical (noMatchMsg o) := by
    simp only [parse_json, h1, h5]
    simp only [Bool.not_eq_true, afterList, htr, Json.isList, Json.asList, h2, hname,
      Option.isNone_none, Bool.true_and, Bool.and_self, if_true, if_false]
    rw [h3]
    simp only [Option.getD_some]
    rw [scanPolicy_eq_find name records h7]
    cases records.find? (matchName name) <;> simp
  have hmsg : noMatchMsg o =
      "no matching policy found with name '" ++ name ++
        "' in policy list returned by Ranger" ++ hostInfo o := by
    simp only [noMatchMsg, h3, pyFmtOptStr]
  constructor
  · intro p hp
    rw [key, hp]
    simp [matchName_truthy (List.find?_some hp)]
  · intro hnone
    rw [key, hnone, hmsg]

/-- C5 witness: a two-record collection where only the second record is
named `p2`; the scan returns it, and searching a missing name is the
CRITICAL not-found error. -/
theorem c5_witness :
    (∀ p, [c1Record, fullRecord].find? (matchName "p1") = some p →
      parse_json c1Opts (.obj [("vXPolicies", .arr [c1Record, fullRecord])]) =
        check_policy c1Opts p) ∧
    ([c1Record, fullRecord].find? (matchName "p1") = none →
      parse_json c1Opts (.obj [("vXPolicies", .arr [c1Record, fullRecord])]) =
        .critical ("no matching policy found with name '" ++ "p1" ++
          "' in policy list returned by Ranger" ++ hostInfo c1Opts)) :=
  c5_confirmed c1Opts (.obj [("vXPolicies", .arr [c1Record, fullRecord])])
    [c1Record, fullRecord] "p1" rfl rfl rfl (by decide) rfl (by simp)
    (by intro r0 hr0; fin_cases hr0 <;> rfl)

/-! ## C2 -/

/-- A value the listing table can format: a string, an integer or a
boolean. -/
def cellOk (v : Json) : Bool :=
  match v with
  | .str _ => true
  | .num _ => true
  | .bool _ => true
  | _ => false

/-- `r0` carries field `f` with a formattable value. -/
def fieldOk (r0 : Json) (f : String) : Bool :=
  match r0.getField f with
  | some v => cellOk v
  | none => false

/-- `r0` carries all eight fields the listing table reads, each with a
formattable value. -/
def rowOk (r0 : Json) : Bool :=
  fieldOk r0 "id" && fieldOk r0 "policyName" && fieldOk r0 "repositoryName" &&
    fieldOk r0 "repositoryType" && fieldOk r0 "isEnabled" && fieldOk r0 "isAuditEnabled" &&
    fieldOk r0 "isRecursive" && fieldOk r0 "description"

theorem fieldOk_some {r0 : Json} {f : String} (h : fieldOk r0 f = true) :
    ∃ v, r0.getField f = some v ∧ cellOk v = true := by
  unfold fieldOk at h
  cases hg : r0.getField f with
  | none => rw [hg] at h; simp at h
  | some v => rw [hg] at h; exact ⟨v, rfl, h⟩

theorem formatCell_ok {v : Json} (h : cellOk v = true) (width : Nat) :
    ∃ s, formatCell v width = .ok s := by
  cases v <;> first | exact ⟨_, rfl⟩ | simp [cellOk] at h

theorem updateWidths_ok {r0 : Json} (h : rowOk r0 = true) (w : String → Nat) :
    ∃ w2, updateWidths r0 w = .ok w2 := by
  simp only [rowOk, Bool.and_eq_true] at h
  obtain ⟨⟨⟨⟨⟨⟨⟨hid, hpn⟩, hrn⟩, hrt⟩, hen⟩, hau⟩, hrc⟩, hds⟩ := h
  obtain ⟨v1, hv1, -⟩ := fieldOk_some hpn
  obtain ⟨v2, hv2, -⟩ := fieldOk_some hrn
  obtain ⟨v3, hv3, -⟩ := fieldOk_some hrt
  obtain ⟨v4, hv4, -⟩ := fieldOk_some hen
  obtain ⟨v5, hv5, -⟩ := fieldOk_some hau
  obtain ⟨v6, hv6, -⟩ := fieldOk_some hrc
  obtain ⟨v7, hv7, -⟩ := fieldOk_some hid
  simp only [updateWidths, updCol, hv1, hv2, hv3, hv4, hv5, hv6, hv7,
    Bind.bind, Except.bind, pure, Except.pure]
  exact ⟨_, rfl⟩

theorem dumpAndWidths_ok : ∀ (records : List Json), (∀ r0 ∈ records, rowOk r0 = true) →
    ∀ w, ∃ w2, dumpAndWidths records w = .ok (records.map jsonpp, w2)
  | [], _, w => ⟨w, rfl⟩
  | p :: ps, h, w => by
    obtain ⟨w1, hw1⟩ := updateWidths_ok (h p (by simp)) w
    obtain ⟨w2, hw2⟩ := dumpAndWidths_ok ps (fun r0 hr0 => h r0 (by simp [hr0])) w1
    exact ⟨w2, by simp [dumpAndWidths, hw1, hw2]⟩

theorem formatRow_ok {r0 : Json} (h : rowOk r0 = true) (w : String → Nat) :
    ∃ s, formatRow r0 w = .ok s := by
  simp only [rowOk, Bool.and_eq_true] at h
  obtain ⟨⟨⟨⟨⟨⟨⟨hid, hpn⟩, hrn⟩, hrt⟩, hen⟩, hau⟩, hrc⟩, hds⟩ := h
  obtain ⟨v1, hv1, hc1⟩ := fieldOk_some hid
  obtain ⟨v2, hv2, hc2⟩ := fieldOk_some hpn
  obtain ⟨v3, hv3, hc3⟩ := fieldOk_some hrn
  obtain ⟨v4, hv4, hc4⟩ := fieldOk_some hrt
  obtain ⟨v5, hv5, hc5⟩ := fieldOk_some hen
  obtain ⟨v6, hv6, hc6⟩ := fieldOk_some hau
  obtain ⟨v7, hv7, hc7⟩ := fieldOk_some hrc
  obtain ⟨v8, hv8, hc8⟩ := fieldOk_some hds
  obtain ⟨s1, hs1⟩ := formatCell_ok hc1 (w "Id")
  obtain ⟨s2, hs2⟩ := formatCell_ok hc2 (w "Name")
  obtain ⟨s3, hs3⟩ := formatCell_ok hc3 (w "RepoName")
  obtain ⟨s4, hs4⟩ := formatCell_ok hc4 (w "RepoType")
  obtain ⟨s5, hs5⟩ := formatCell_ok hc5 (w "Enabled")
  obtain ⟨s6, hs6⟩ := formatCell_ok hc6 (w "Audit")
  obtain ⟨s7, hs7⟩ := formatCell_ok hc7 (w "Recursive")
  obtain ⟨s8, hs8⟩ := formatCell_ok hc8 (w "Description")
  simp only [formatRow, cellFor, hv1, hv2, hv3, hv4, hv5, hv6, hv7, hv8,
    hs1, hs2, hs3, hs4, hs5, hs6, hs7, hs8, Bind.bind, Except.bind, pure, Except.pure]
  exact ⟨_, rfl⟩

theorem rowsFor_ok : ∀ (records : List Json), (∀ r0 ∈ records, rowOk r0 = true) →
    ∀ w, ∃ rows, rowsFor w records = .ok rows ∧ rows.length = records.length
  | [], _, _ => ⟨[], rfl, rfl⟩
  | p :: ps, h, w => by
    obtain ⟨s, hs⟩ := formatRow_ok (h p (by simp)) w
    obtain ⟨rows, hr, hl⟩ := rowsFor_ok ps (fun r0 hr0 => h r0 (by simp [hr0])) w
    exact ⟨s :: rows, by simp [rowsFor, hs, hr], by simp [hl]⟩

theorem print_policies_ok (records : List Json) (h : ∀ r0 ∈ records, rowOk r0 = true) :
    ∃ b hd rows, print_policies records = .ok (records.map jsonpp ++ [b, hd, b] ++ rows) ∧
      rows.length = records.length := by
  obtain ⟨w2, hw⟩ := dumpAndWidths_ok records h (fun c => c.length)
  obtain ⟨rows, hr, hl⟩ := rowsFor_ok records h w2
  refine ⟨String.mk (List.replicate (totalWidth w2) '='), headerLine w2, rows, ?_, hl⟩
  simp [print_policies, hw, hr]

/-- C2, counterexample: listing an empty collection does not conclude with
the informational unknown status — the empty-collection check at line 124
fires first and the outcome is the CRITICAL "no Ranger policies found!"
error, with zero table rows emitted. -/
theorem c2_counterexample :
    parse_json c2Opts (.obj [("vXPolicies", .arr [])]) = .critical "no Ranger policies found!" ∧
    (parse_json c2Opts (.obj [("vXPolicies", .arr [])])).surfaced = .CRITICAL := by
  constructor <;> decide

/-- C2 (corrected): on a non-empty collection whose records all carry the
eight table fields with formattable values, listing mode emits the
per-record dumps, the bordered header, and one table row per record (row
count equals the collection size), and concludes with the unknown
informational status; an empty collection instead raises the CRITICAL
"no Ranger policies found!" error before listing. -/
theorem c2_amended (o : Opts) (payload : Json) (records : List Json)
    (h1 : o.list_policies = true) (h2 : records ≠ [])
    (h3 : ∀ r0 ∈ records, rowOk r0 = true)
    (hp : payload.getField "vXPolicies" = some (.arr records)) :
    ∃ b hd rows, parse_json o payload = .listed (records.map jsonpp ++ [b, hd, b] ++ rows) ∧
      rows.length = records.length ∧ (parse_json o payload).surfaced = .UNKNOWN := by
  obtain ⟨b, hd, rows, hpp, hl⟩ := print_policies_ok records h3
  have htr : (Json.arr records).truthy = true := by simp [Json.truthy, h2]
  have key : parse_json o payload = .listed (records.map jsonpp ++ [b, hd, b] ++ rows) := by
    simp only [parse_json, h1, or_true, if_true, hp]
    simp [afterList, htr, Json.isList, Json.asList, h1, hpp]
  exact ⟨b, hd, rows, key, hl, by rw [key]; rfl⟩

/-- C2 witness: listing a one-record collection. -/
theorem c2_witness :
    ∃ b hd rows,
      parse_json c2Opts (.obj [("vXPolicies", .arr [fullRecord])]) =
        .listed ([fullRecord].map jsonpp ++ [b, hd, b] ++ rows) ∧
      rows.length = [fullRecord].length ∧
      (parse_json c2Opts (.obj [("vXPolicies", .arr [fullRecord])])).surfaced = .UNKNOWN :=
  c2_amended c2Opts _ [fullRecord] rfl (by simp)
    (by intro r0 hr0; fin_cases hr0; rfl) rfl

end Ranger
